import Mathlib

/-!
Verification of the storyboard generation pipeline of the
`scripto` serverless backend (`apps/server/src`), against its
natural-language specification.

The Python source is shallowly embedded: pure functions become Lean
functions, the remote collaborators (text model, image model, blob
storage, user database) become explicit oracle parameters recording the
outcome of each external call, a raised exception becomes an
`Except`-style error value, and the `try/except` blocks of the source
become explicit matches on those error values.
-/

set_option linter.unusedVariables false
set_option maxRecDepth 8192

namespace Scripto

/-- Python string slicing `s[:n]` (by characters). -/
def pyTake (s : String) (n : Nat) : String := String.mk (s.data.take n)

/-- Embedding of the `APIError` exception hierarchy of
`src/models/__init__.py` (lines 209-229): each class is an `APIError`
carrying a message and an HTTP status code. -/
structure APIError where
  message : String
  status_code : Nat
deriving DecidableEq, Repr

/-- Constructor `APIError(message)` — default status 500. -/
def mkAPIError (msg : String) : APIError := ⟨msg, 500⟩

/-- Constructor `ValidationError(message)` — status 400. -/
def mkValidationError (msg : String) : APIError := ⟨msg, 400⟩

/-- Constructor `NotFoundError(message)` — status 404. -/
def mkNotFoundError (msg : String) : APIError := ⟨msg, 404⟩

/-- Constructor `RateLimitError(message)` — status 429. -/
def mkRateLimitError (msg : String) : APIError := ⟨msg, 429⟩

/-- Embedding of the `StoryFrame` dataclass of `src/models/__init__.py`
(lines 10-20), the per-frame outline produced by the text client. -/
structure StoryFrame where
  description : String
  detailed_description : String := ""
  dialogue : String := ""
  action_note : String := ""
  camera_angle : String := ""
  character_details : String := ""
  environment_details : String := ""
deriving DecidableEq, Repr

/-- Embedding of the `StoryboardResponse` dataclass of
`src/models/__init__.py` (lines 82-86): a title plus the ordered frame
outlines. -/
structure StoryboardResponse where
  title : String
  frames : List StoryFrame
deriving DecidableEq, Repr

/-- Embedding of the `StoryboardRequest` dataclass of
`src/models/__init__.py` (lines 35-46). -/
structure StoryboardRequest where
  prompt : String
  genre : String
  visual_style : String
  mood : String
  frame_count : Nat
  camera_angles : List String
  include_dialogue : Bool := false
  include_action_notes : Bool := false
  user_id : Option String := none
deriving DecidableEq, Repr

/-- Embedding of `StoryboardRequest.validate` (`src/models/__init__.py`
lines 63-80): collects the validation error messages.  Python truthiness
on strings/lists/ints is the emptiness/zero test. -/
def StoryboardRequest.validate (r : StoryboardRequest) : List String :=
  (if r.prompt = "" then ["Prompt is required"] else []) ++
  (if r.genre = "" then ["Genre is required"] else []) ++
  (if r.visual_style = "" then ["Visual style is required"] else []) ++
  (if r.mood = "" then ["Mood is required"] else []) ++
  (if r.frame_count = 0 then ["Frame count must be at least 1"] else []) ++
  (if r.camera_angles = [] then ["Camera angles are required"] else [])

/-- Embedding of the `User` dataclass of `src/models/__init__.py`
(lines 95-108), restricted to the fields the usage gate reads.
`last_usage_date` is the ISO date string of the stored date, or `none`
when the column is NULL. -/
structure User where
  id : String
  email : String
  daily_usage_count : Nat
  last_usage_date : Option String
  is_admin : Bool
  role : String
deriving DecidableEq, Repr

/-- Constant `Config.DAILY_USAGE_LIMIT` (`src/config/settings.py` line 40). -/
def DAILY_USAGE_LIMIT : Nat := 3

/-- Constant `Config.MAX_RETRIES` (`src/config/settings.py` line 41). -/
def MAX_RETRIES : Nat := 3

/-- Constant `Config.PLACEHOLDER_IMAGE_URL` (`src/config/settings.py` line 42). -/
def PLACEHOLDER_IMAGE_URL : String :=
  "https://via.placeholder.com/1792x1024/cccccc/333333?text=Image+Generation+Failed"

/-- Embedding of `DALLEService.build_image_prompt`
(`src/core/ai/ai_services.py` lines 147-185).  `frame_number`,
`total_frames` and `story_context` are parameters of the source function
that its body never splices into the prompt; they are kept for
faithfulness.  Python `if s:` on a string is the non-emptiness test and
`s[:1000]` is `pyTake`. -/
def build_image_prompt (description visual_style mood : String)
    (frame_number total_frames : Nat) (story_context : String)
    (character_details : String := "") (environment_details : String := "") :
    String :=
  let base_prompt := "Digital illustration of a scene"
  let character_consistency :=
    if character_details ≠ "" then ". Characters: " ++ character_details else ""
  let environment_consistency :=
    if environment_details ≠ "" then ". Setting: " ++ environment_details else ""
  let style_instructions := ". Art style: " ++ visual_style ++ " style"
  let mood_instructions := ". Atmosphere: " ++ mood ++ " mood with appropriate lighting"
  let scene_description := ". Scene: " ++ description
  let quality_instructions := ". High quality digital art, clean composition, no UI elements, no borders, no frames, no text overlays, no storyboard panels, just the pure scene illustration"
  let full_prompt := base_prompt ++ scene_description ++ character_consistency ++
    environment_consistency ++ style_instructions ++ mood_instructions ++ quality_instructions
  if 1000 < full_prompt.length then
    let essential_parts := base_prompt ++ scene_description ++ character_consistency ++
      style_instructions ++ quality_instructions
    if essential_parts.length ≤ 1000 then essential_parts
    else pyTake full_prompt 1000
  else full_prompt

theorem pyTake_length (s : String) (n : Nat) :
    (pyTake s n).length = min n s.length :=
  List.length_take n s.data

/-- A pathologically long (400-character) frame description. -/
def longDescription : String := String.mk (List.replicate 400 'a')

/-- C6 (amended) — For all inputs, including pathologically long
description, character-details and environment-details strings, the
image prompt builder's output length is at most 1000 characters: the cap
in `build_image_prompt` is the hardcoded literal 1000, not a configured
400. -/
theorem build_image_prompt_length_le_1000
    (description visual_style mood : String) (frame_number total_frames : Nat)
    (story_context character_details environment_details : String) :
    (build_image_prompt description visual_style mood frame_number total_frames
      story_context character_details environment_details).length ≤ 1000 := by
  unfold build_image_prompt
  dsimp only
  split_ifs <;>
    first
      | (rw [pyTake_length]; exact min_le_left _ _)
      | omega

/-- C6 (counterexample) — the claim's 400-character cap does not hold:
on a 400-character description the builder returns a prompt longer than
400 characters (and does not truncate it, since it is still under the
actual hardcoded cap of 1000). -/
theorem build_image_prompt_exceeds_400 :
    400 < (build_image_prompt longDescription "anime" "dark" 1 3 "Title" "" "").length := by
  decide

/-- The body of the `try` block of `StoryboardHandler._check_user_limits`
(`src/api/storyboard_handler.py` lines 94-112), given the result of
`db_service.get_user_by_id` and today's ISO date string.  An
`Except.error` is a raised exception; Python `last_usage_date != today`
compares the optional ISO string (`None != today` is true). -/
def check_user_limits_body (user : Option User) (today : String) :
    Except APIError Unit :=
  match user with
  | none => .ok ()
  | some u =>
    if u.is_admin ∨ u.role = "admin" ∨ u.role = "superadmin" then .ok ()
    else if u.last_usage_date ≠ some today then .ok ()
    else if DAILY_USAGE_LIMIT ≤ u.daily_usage_count then
      .error (mkRateLimitError
        ("Daily usage limit exceeded. You can create " ++
          toString DAILY_USAGE_LIMIT ++ " storyboards per day."))
    else .ok ()

/-- Embedding of `StoryboardHandler._check_user_limits`
(`src/api/storyboard_handler.py` lines 90-115): the whole body, the
`raise RateLimitError` included, sits inside `try: ... except Exception:`
which logs and falls through, so every raised exception — a database
error (`getUser = .error`) as well as the handler's own
`RateLimitError` — is swallowed and the function returns normally. -/
def check_user_limits (getUser : Except String (Option User))
    (today : String) : Except APIError Unit :=
  match getUser with
  | .error _ => .ok ()
  | .ok user =>
    match check_user_limits_body user today with
    | .error _ => .ok ()
    | .ok _ => .ok ()

/-- Embedding of the usage-update step of
`StoryboardHandler.generate_storyboard`
(`src/api/storyboard_handler.py` lines 69-83), performed by the caller
after a successful generation.  Returns the `(count, date)` pair written
by `db_service.update_user_usage`, or `none` when no write happens: the
user is absent, the database read raised, or `last_usage_date` is NULL
(`None.isoformat()` raises `AttributeError`, swallowed by the
`except`). -/
def usage_update_step (getUser : Except String (Option User))
    (today : String) : Option (Nat × String) :=
  match getUser with
  | .error _ => none
  | .ok none => none
  | .ok (some u) =>
    match u.last_usage_date with
    | none => none
    | some d =>
      if d ≠ today then some (1, today)
      else some (u.daily_usage_count + 1, today)

/-- Substring test on strings, embedding Python's `needle in hay`. -/
def containsSub (hay needle : String) : Bool :=
  go hay.data needle.data
where
  go : List Char → List Char → Bool
    | [], ns => ns.isEmpty
    | h :: t, ns => ns.isPrefixOf (h :: t) || go t ns

/-- Embedding of the rate-limit test of `DALLEService.generate_image`
(`src/core/ai/ai_services.py` line 227):
`"rate limit" in str(e).lower() or "429" in str(e)`. -/
def isRateLimitSignal (e : String) : Bool :=
  containsSub e.toLower "rate limit" || containsSub e "429"

/-- The retry loop of `DALLEService.generate_image`
(`src/core/ai/ai_services.py` lines 190-242), recursing over the list of
remaining attempt numbers (`range(Config.MAX_RETRIES)`).  `modelCall a`
is the outcome of the DALL-E call on attempt `a` (the transient image
URL, or the raised exception's message); `blobUpload url` is the outcome
of `blob_storage_service.upload_image_from_url` (the permanent URL, or
the raised exception).  On a blob-upload failure the temporary URL is
returned; `rest = []` is `attempt == Config.MAX_RETRIES - 1`. -/
def generate_image_go (modelCall : Nat → Except String String)
    (blobUpload : String → Except String String) :
    List Nat → Except APIError String
  | [] => .error (mkAPIError "Failed to generate image after all retry attempts")
  | attempt :: rest =>
    match modelCall attempt with
    | .ok temp_image_url =>
      match blobUpload temp_image_url with
      | .ok permanent_url => .ok permanent_url
      | .error _ => .ok temp_image_url
    | .error e =>
      if isRateLimitSignal e then
        if rest = [] then
          .error (mkRateLimitError
            "Rate limit exceeded. Please wait a few minutes before trying again.")
        else generate_image_go modelCall blobUpload rest
      else if rest = [] then
        .error (mkAPIError ("Image generation failed: " ++ e))
      else generate_image_go modelCall blobUpload rest

/-- Embedding of `DALLEService.generate_image`
(`src/core/ai/ai_services.py` lines 187-242): the retry loop run on
`range(Config.MAX_RETRIES)`. -/
def generate_image (modelCall : Nat → Except String String)
    (blobUpload : String → Except String String) : Except APIError String :=
  generate_image_go modelCall blobUpload (List.range MAX_RETRIES)

/-- Python JSON values, for the dynamic result of `json.loads`. -/
inductive Json where
  | null
  | bool (b : Bool)
  | num (n : Int)
  | str (s : String)
  | arr (elems : List Json)
  | obj (entries : List (String × Json))

/-- Python `dict` key lookup (keys of a decoded JSON object are unique;
first match). -/
def jlookup : List (String × Json) → String → Option Json
  | [], _ => none
  | (k, v) :: rest, key => if k = key then some v else jlookup rest key

/-- Python `dict.get(key, default)`. -/
def jgetD (entries : List (String × Json)) (key : String) (dflt : Json) : Json :=
  (jlookup entries key).getD dflt

/-- The `StoryFrame` built by `DeepSeekService._parse_response`
(`src/core/ai/ai_services.py` lines 119-127).  Python is dynamically
typed, so each field holds whatever JSON value `frame_data.get` found
(the dataclass annotations are not enforced). -/
structure StoryFrameJ where
  description : Json
  detailed_description : Json
  dialogue : Json
  action_note : Json
  camera_angle : Json
  character_details : Json
  environment_details : Json

/-- The `StoryboardResponse` built by `DeepSeekService._parse_response`
(`src/core/ai/ai_services.py` lines 130-133), at the dynamic JSON
level. -/
structure StoryboardResponseJ where
  title : Json
  frames : List StoryFrameJ

/-- One iteration of the frame loop of `_parse_response`
(`src/core/ai/ai_services.py` lines 118-128): `frame_data.get(...)`
succeeds only when `frame_data` is a dict; on any other value the
attribute access raises (`none`), to be caught by the function's
`except`. -/
def mkFrameJ : Json → Option StoryFrameJ
  | .obj kvs => some
    { description := jgetD kvs "description" (.str "")
      detailed_description :=
        jgetD kvs "detailedDescription" (jgetD kvs "description" (.str ""))
      dialogue := jgetD kvs "dialogue" (.str "")
      action_note := jgetD kvs "actionNote" (.str "")
      camera_angle := jgetD kvs "cameraAngle" (.str "")
      character_details := jgetD kvs "characterDetails" (.str "")
      environment_details := jgetD kvs "environmentDetails" (.str "") }
  | _ => none

/-- The frame loop of `_parse_response` over the value found under
`"frames"`: iterating a JSON array visits its elements; iterating a
string visits its characters and a dict its keys, so any non-empty
non-array value makes `frame_data.get` raise (`none`); iterating `null`,
a number or a boolean raises `TypeError` at once. -/
def framesOfJ : Json → Option (List StoryFrameJ)
  | .arr elems => elems.mapM mkFrameJ
  | .str s => if s = "" then some [] else none
  | .obj [] => some []
  | .obj (_ :: _) => none
  | _ => none

/-- Embedding of `DeepSeekService._parse_response`
(`src/core/ai/ai_services.py` lines 86-137), given the outcome of the
code-fence stripping plus `json.loads` on the model's content
(`decoded = .error` when that raised).  Every exception raised inside
the body — decode failure, the `ValueError` for a non-dict value or a
missing `"title"`/`"frames"` key, or a failure while iterating the
frames — is caught by the `except` (line 135) which returns
`StoryboardResponse(title="", frames=[])`; the function never raises. -/
def parse_response (decoded : Except String Json) : StoryboardResponseJ :=
  match decoded with
  | .error _ => ⟨.str "", []⟩
  | .ok (.obj kvs) =>
    if (jlookup kvs "title").isNone || (jlookup kvs "frames").isNone then ⟨.str "", []⟩
    else
      match framesOfJ (jgetD kvs "frames" (.arr [])) with
      | some frames => ⟨jgetD kvs "title" (.str ""), frames⟩
      | none => ⟨.str "", []⟩
  | .ok _ => ⟨.str "", []⟩

/-- Embedding of `DeepSeekService.generate_storyboard_data`
(`src/core/ai/ai_services.py` lines 51-84).  The single remote chat call
is consumed as its outcome `callResult` (there is no retry loop in the
source: the call happens exactly once): `.error e` when the transport or
model client raised `e`, else the decode outcome of the returned content
for `_parse_response`.  A transport error is re-raised as
`APIError("Failed to generate storyboard: ...")` with status 500. -/
def generate_storyboard_data (callResult : Except String (Except String Json)) :
    Except APIError StoryboardResponseJ :=
  match callResult with
  | .error e => .error (mkAPIError ("Failed to generate storyboard: " ++ e))
  | .ok decoded => .ok (parse_response decoded)

/-- The per-frame result dict built by `generate_single_frame`
(`src/api/storyboard_handler.py` lines 157-167 and 171-180): the
`dialogue`/`actionNote` keys are present (`some`) only when the request
flag gates them in. -/
structure FrameResult where
  description : String
  imageUrl : String
  dialogue : Option String
  actionNote : Option String
deriving DecidableEq, Repr, Inhabited

/-- Variable `main_character_reference` of `StoryboardHandler._generate_frame_images`
(`src/api/storyboard_handler.py` lines 126-129): the first frame's
`character_details` when the frame list is non-empty and that string is
truthy, else `""`. -/
def main_character_reference (sb : StoryboardResponse) : String :=
  match sb.frames with
  | [] => ""
  | f :: _ => if f.character_details ≠ "" then f.character_details else ""

/-- Embedding of `generate_single_frame`
(`src/api/storyboard_handler.py` lines 131-180) for the 1-indexed frame
`(i, frame)`.  `imgResult` is the outcome of
`dalle_service.generate_image` for this frame (the only statement in the
`try` that can raise — `build_image_prompt` is total); on `.error` the
`except` branch substitutes `Config.PLACEHOLDER_IMAGE_URL` while keeping
the frame's own description and flag-gated dialogue/actionNote. -/
def generate_single_frame (req : StoryboardRequest) (sb : StoryboardResponse)
    (imgResult : Except String String) (i : Nat) (frame : StoryFrame) :
    FrameResult :=
  let enhanced_character_details :=
    if 1 < i ∧ main_character_reference sb ≠ "" then
      "Same as frame 1: " ++ pyTake (main_character_reference sb) 100
    else frame.character_details
  let image_prompt := build_image_prompt
    (if frame.detailed_description ≠ "" then frame.detailed_description
     else frame.description)
    req.visual_style req.mood i sb.frames.length sb.title
    enhanced_character_details frame.environment_details
  match imgResult with
  | .ok image_url =>
    { description := frame.description
      imageUrl := image_url
      dialogue := if req.include_dialogue then some frame.dialogue else none
      actionNote := if req.include_action_notes then some frame.action_note else none }
  | .error _ =>
    { description := frame.description
      imageUrl := PLACEHOLDER_IMAGE_URL
      dialogue := if req.include_dialogue then some frame.dialogue else none
      actionNote := if req.include_action_notes then some frame.action_note else none }

/-- The completed future for frame index `i`
(`src/api/storyboard_handler.py` lines 190-198): the task submitted for
`i` carries the frame `sb.frames[i-1]`, and its result is
`generate_single_frame` on it (that function catches every exception, so
`future.result()` never raises and the dead `except` of lines 201-206 is
not taken).  `none` when no task with index `i` was submitted. -/
def renderAt (req : StoryboardRequest) (sb : StoryboardResponse)
    (imgOracle : Nat → Except String String) (i : Nat) : Option FrameResult :=
  (sb.frames.get? (i - 1)).map
    (fun frame => generate_single_frame req sb (imgOracle i) i frame)

/-- One step of the result-collection loop
(`src/api/storyboard_handler.py` line 199): `results[idx] = frame_data`
for the next completed future. -/
def collect_step (req : StoryboardRequest) (sb : StoryboardResponse)
    (imgOracle : Nat → Except String String)
    (results : Nat → Option FrameResult) (i : Nat) : Nat → Option FrameResult :=
  match renderAt req sb imgOracle i with
  | some r => Function.update results i (some r)
  | none => results

/-- The `results` dict after the `as_completed` loop
(`src/api/storyboard_handler.py` lines 186-206), where `order` is the
sequence of frame indices in completion order. -/
def collect_results (req : StoryboardRequest) (sb : StoryboardResponse)
    (imgOracle : Nat → Except String String) (order : List Nat) :
    Nat → Option FrameResult :=
  order.foldl (collect_step req sb imgOracle) (fun _ => none)

/-- The final readout `[results[i] for i in range(1, total_frames + 1)]`
(`src/api/storyboard_handler.py` line 209); `none` is the `KeyError`
raised on a missing index. -/
def readOut (results : Nat → Option FrameResult) : List Nat → Option (List FrameResult)
  | [] => some []
  | i :: is =>
    match results i, readOut results is with
    | some r, some rs => some (r :: rs)
    | _, _ => none

/-- Embedding of `StoryboardHandler._generate_frame_images`
(`src/api/storyboard_handler.py` lines 117-209).  `imgOracle i` is the
outcome of the DALL-E generation for frame `i`; `order` is the order in
which the thread pool's futures complete (any permutation of the
submitted indices `1..total_frames`). -/
def generate_frame_images (sb : StoryboardResponse) (req : StoryboardRequest)
    (imgOracle : Nat → Except String String) (order : List Nat) :
    Option (List FrameResult) :=
  readOut (collect_results req sb imgOracle order)
    (List.range' 1 sb.frames.length)

/-- The in-original-order rendering of a suffix of the frame list
starting at 1-based index `i`: the specification's expected value of the
fan-out, one `generate_single_frame` per frame, index order. -/
def render_frames (req : StoryboardRequest) (sb : StoryboardResponse)
    (imgOracle : Nat → Except String String) : Nat → List StoryFrame → List FrameResult
  | _, [] => []
  | i, frame :: rest =>
    generate_single_frame req sb (imgOracle i) i frame ::
      render_frames req sb imgOracle (i + 1) rest

/-- The JSON body of an HTTP response of the storyboard endpoint: either
the success payload `{"title": ..., "frames": [...]}` or an error body
`{"error": ...}`. -/
inductive Body where
  | storyboard (title : String) (frames : List FrameResult)
  | error (msg : String)
deriving DecidableEq, Repr

/-- An HTTP response as produced by `create_json_response` /
`create_error_response` (`src/utils/helpers.py` lines 12-27). -/
structure HttpResponse where
  status : Nat
  body : Body
deriving DecidableEq, Repr

/-- Observable outcome of one request to the storyboard endpoint:
the HTTP response, how many DALL-E image generations were invoked, and
the `(count, date)` argument of the `db_service.update_user_usage` call
if one was made. -/
structure PipelineOutcome where
  response : HttpResponse
  imageCalls : Nat
  usageWrite : Option (Nat × String)
deriving DecidableEq, Repr

/-- Embedding of `StoryboardHandler.generate_storyboard`
(`src/api/storyboard_handler.py` lines 28-88) under the `error_handler`
decorator (`src/utils/helpers.py` lines 39-51), after request-body
parsing.  `getUser` is the outcome of `db_service.get_user_by_id` (used
by both the limit check and the usage update), `textResult` the outcome
of `deepseek_service.generate_storyboard_data`, `imgOracle`/`order`
drive the frame fan-out, `today` is `date.today().isoformat()`.  A
raised `APIError e` becomes the `(e.status_code, {"error": e.message})`
response; the `KeyError` of a missing result index becomes the catch-all
500. -/
def generate_storyboard (req : StoryboardRequest)
    (getUser : Except String (Option User))
    (textResult : Except APIError StoryboardResponse)
    (imgOracle : Nat → Except String String)
    (order : List Nat) (today : String) : PipelineOutcome :=
  if req.validate ≠ [] then
    { response := ⟨400, .error ("Validation failed: " ++
        String.intercalate "; " req.validate)⟩
      imageCalls := 0
      usageWrite := none }
  else
    match (if req.user_id.isSome then check_user_limits getUser today
           else .ok ()) with
    | .error e => ⟨⟨e.status_code, .error e.message⟩, 0, none⟩
    | .ok _ =>
      match textResult with
      | .error e => ⟨⟨e.status_code, .error e.message⟩, 0, none⟩
      | .ok sb =>
        match sb.frames with
        | [] => ⟨⟨200, .storyboard sb.title []⟩, 0, none⟩
        | _ :: _ =>
          match generate_frame_images sb req imgOracle order with
          | none => ⟨⟨500, .error "An unexpected error occurred"⟩,
              sb.frames.length, none⟩
          | some frames =>
            ⟨⟨200, .storyboard sb.title frames⟩, sb.frames.length,
              if req.user_id.isSome then usage_update_step getUser today
              else none⟩

theorem check_user_limits_ok (getUser : Except String (Option User))
    (today : String) : check_user_limits getUser today = .ok () := by
  cases getUser with
  | error e => rfl
  | ok user =>
    cases h : check_user_limits_body user today <;>
      simp [check_user_limits, h]

theorem collect_foldl_apply (req : StoryboardRequest) (sb : StoryboardResponse)
    (imgOracle : Nat → Except String String) :
    ∀ (order : List Nat) (m : Nat → Option FrameResult) (i : Nat) (r : FrameResult),
    renderAt req sb imgOracle i = some r →
    (order.foldl (collect_step req sb imgOracle) m) i =
      if i ∈ order then some r else m i := by
  intro order
  induction order with
  | nil => intro m i r _; simp
  | cons j rest ih =>
    intro m i r hr
    rw [List.foldl_cons, ih _ _ _ hr]
    by_cases hij : i = j
    · subst hij
      have hstep : collect_step req sb imgOracle m i i = some r := by
        simp [collect_step, hr]
      simp [hstep]
    · have hstep : collect_step req sb imgOracle m j i = m i := by
        unfold collect_step
        cases renderAt req sb imgOracle j with
        | some r' => simp [Function.update_noteq hij]
        | none => rfl
      rw [hstep]
      simp [List.mem_cons, hij]

theorem readOut_render (req : StoryboardRequest) (sb : StoryboardResponse)
    (imgOracle : Nat → Except String String) :
    ∀ (suffix : List StoryFrame) (a : Nat) (m : Nat → Option FrameResult),
    (∀ j, j < suffix.length → m (a + j) =
      (suffix.get? j).map
        (fun f => generate_single_frame req sb (imgOracle (a + j)) (a + j) f)) →
    readOut m (List.range' a suffix.length) =
      some (render_frames req sb imgOracle a suffix) := by
  intro suffix
  induction suffix with
  | nil => intro a m _; rfl
  | cons f rest ih =>
    intro a m h
    have h0 := h 0 (by simp)
    simp only [Nat.add_zero, List.get?_cons_zero, Option.map_some'] at h0
    have hrec := ih (a + 1) m (fun j hj => by
      have hsh := h (j + 1) (by simpa using Nat.succ_lt_succ hj)
      have e : a + (j + 1) = (a + 1) + j := by omega
      rw [e, List.get?_cons_succ] at hsh
      exact hsh)
    rw [List.length_cons, List.range'_succ]
    unfold readOut
    rw [h0, hrec]
    rfl

theorem render_frames_length (req : StoryboardRequest) (sb : StoryboardResponse)
    (imgOracle : Nat → Except String String) :
    ∀ (fs : List StoryFrame) (i : Nat),
    (render_frames req sb imgOracle i fs).length = fs.length := by
  intro fs
  induction fs with
  | nil => intro i; rfl
  | cons f rest ih => intro i; simp [render_frames, ih]

theorem render_frames_get? (req : StoryboardRequest) (sb : StoryboardResponse)
    (imgOracle : Nat → Except String String) :
    ∀ (fs : List StoryFrame) (i j : Nat),
    (render_frames req sb imgOracle i fs).get? j =
      (fs.get? j).map
        (fun f => generate_single_frame req sb (imgOracle (i + j)) (i + j) f) := by
  intro fs
  induction fs with
  | nil => intro i j; rfl
  | cons f rest ih =>
    intro i j
    cases j with
    | zero => simp [render_frames]
    | succ j' =>
      have : i + (j' + 1) = (i + 1) + j' := by omega
      simp only [render_frames, List.get?_cons_succ, this, ih (i + 1) j']

theorem generate_frame_images_eq (req : StoryboardRequest)
    (sb : StoryboardResponse) (imgOracle : Nat → Except String String)
    (order : List Nat)
    (hperm : order.Perm (List.range' 1 sb.frames.length)) :
    generate_frame_images sb req imgOracle order =
      some (render_frames req sb imgOracle 1 sb.frames) := by
  unfold generate_frame_images
  apply readOut_render
  intro j hj
  have hmem : (1 + j) ∈ order := hperm.mem_iff.mpr (by
    rw [List.mem_range'_1]; omega)
  obtain ⟨f, hf⟩ : ∃ f, sb.frames.get? j = some f :=
    List.get?_eq_get hj ▸ ⟨_, rfl⟩
  have hrender : renderAt req sb imgOracle (1 + j) =
      some (generate_single_frame req sb (imgOracle (1 + j)) (1 + j) f) := by
    unfold renderAt
    have h1 : 1 + j - 1 = j := by omega
    rw [h1, hf, Option.map_some']
  unfold collect_results
  rw [collect_foldl_apply req sb imgOracle order _ _ _ hrender, if_pos hmem, hf,
    Option.map_some']

theorem generate_storyboard_empty (req : StoryboardRequest)
    (getUser : Except String (Option User)) (sb : StoryboardResponse)
    (imgOracle : Nat → Except String String) (order : List Nat) (today : String)
    (hval : req.validate = []) (hempty : sb.frames = []) :
    generate_storyboard req getUser (.ok sb) imgOracle order today =
      ⟨⟨200, .storyboard sb.title []⟩, 0, none⟩ := by
  unfold generate_storyboard
  rw [if_neg (by simp [hval])]
  have hc : (if req.user_id.isSome then check_user_limits getUser today
      else .ok ()) = Except.ok () := by
    split
    · exact check_user_limits_ok getUser today
    · rfl
  rw [hc]
  dsimp only
  rw [hempty]

/-- C2 — For every valid `StoryboardRequest` with `frame_count = N` and a
text outline of those `N` frames, the fan-out returns exactly `N`
`RenderedFrame` entries assembled strictly in ascending original frame
index order `1..N` (`render_frames` renders index order by
construction), and the result is the same for every completion order of
the concurrent per-frame generations. -/
theorem frames_assembled_in_index_order (req : StoryboardRequest)
    (sb : StoryboardResponse) (imgOracle : Nat → Except String String)
    (order order' : List Nat)
    (hcount : sb.frames.length = req.frame_count)
    (hperm : order.Perm (List.range' 1 req.frame_count))
    (hperm' : order'.Perm (List.range' 1 req.frame_count)) :
    generate_frame_images sb req imgOracle order =
      some (render_frames req sb imgOracle 1 sb.frames) ∧
    (render_frames req sb imgOracle 1 sb.frames).length = req.frame_count ∧
    generate_frame_images sb req imgOracle order =
      generate_frame_images sb req imgOracle order' := by
  have h1 := generate_frame_images_eq req sb imgOracle order
    (by rw [hcount]; exact hperm)
  have h2 := generate_frame_images_eq req sb imgOracle order'
    (by rw [hcount]; exact hperm')
  exact ⟨h1, by rw [render_frames_length]; exact hcount, h1.trans h2.symm⟩

/-- Concrete inputs for the fan-out witnesses: a three-frame outline. -/
def wReq : StoryboardRequest :=
  { prompt := "A robot learns to paint", genre := "sci-fi",
    visual_style := "anime", mood := "hopeful", frame_count := 3,
    camera_angles := ["wide", "close-up", "wide"] }

def wSb : StoryboardResponse :=
  ⟨"Robot Painter",
    [{ description := "Robot finds a brush" },
     { description := "Robot dips the brush" },
     { description := "Robot paints a sunrise" }]⟩

def wOracle : Nat → Except String String :=
  fun i => .ok ("https://img.example/" ++ toString i ++ ".png")

theorem frames_assembled_in_index_order_witness :
    generate_frame_images wSb wReq wOracle [2, 3, 1] =
      some (render_frames wReq wSb wOracle 1 wSb.frames) ∧
    (render_frames wReq wSb wOracle 1 wSb.frames).length = wReq.frame_count ∧
    generate_frame_images wSb wReq wOracle [2, 3, 1] =
      generate_frame_images wSb wReq wOracle [3, 1, 2] :=
  frames_assembled_in_index_order wReq wSb wOracle [2, 3, 1] [3, 1, 2]
    rfl (by decide) (by decide)

/-- C3 — If the image generation for frame `k` fails (raises after its
retries are exhausted inside `generate_image`), the batch still
completes with one entry per frame, frame `k`'s entry carries the
configured placeholder URL together with its own description and the
flag-gated dialogue/actionNote, and every other frame's entry is what it
would have been under any oracle agreeing outside `k`. -/
theorem failed_frame_gets_placeholder (req : StoryboardRequest)
    (sb : StoryboardResponse) (g g' : Nat → Except String String)
    (order : List Nat) (k : Nat) (emsg : String)
    (hk1 : 1 ≤ k)
    (hperm : order.Perm (List.range' 1 sb.frames.length))
    (hfail : g k = .error emsg)
    (hagree : ∀ j, j ≠ k → g j = g' j) :
    generate_frame_images sb req g order =
      some (render_frames req sb g 1 sb.frames) ∧
    (render_frames req sb g 1 sb.frames).length = sb.frames.length ∧
    (∀ f, sb.frames.get? (k - 1) = some f →
      (render_frames req sb g 1 sb.frames).get? (k - 1) = some
        { description := f.description
          imageUrl := PLACEHOLDER_IMAGE_URL
          dialogue := if req.include_dialogue then some f.dialogue else none
          actionNote := if req.include_action_notes then some f.action_note else none }) ∧
    (∀ j, j + 1 ≠ k →
      (render_frames req sb g 1 sb.frames).get? j =
        (render_frames req sb g' 1 sb.frames).get? j) := by
  refine ⟨generate_frame_images_eq req sb g order hperm,
    render_frames_length req sb g sb.frames 1, ?_, ?_⟩
  · intro f hf
    rw [render_frames_get?]
    have e : 1 + (k - 1) = k := by omega
    rw [e, hf, Option.map_some', hfail]
    rfl
  · intro j hj
    rw [render_frames_get?, render_frames_get?, hagree (1 + j) (by omega)]

def wOracleOk : Nat → Except String String :=
  fun i => .ok ("https://blob.example/story_frame_" ++ toString i ++ ".png")

def wOracleFail2 : Nat → Except String String :=
  fun i => if i = 2 then .error "DALL-E API error" else wOracleOk i

theorem failed_frame_gets_placeholder_witness :
    generate_frame_images wSb wReq wOracleFail2 [3, 1, 2] =
      some (render_frames wReq wSb wOracleFail2 1 wSb.frames) ∧
    (render_frames wReq wSb wOracleFail2 1 wSb.frames).length =
      wSb.frames.length ∧
    (∀ f, wSb.frames.get? (2 - 1) = some f →
      (render_frames wReq wSb wOracleFail2 1 wSb.frames).get? (2 - 1) = some
        { description := f.description
          imageUrl := PLACEHOLDER_IMAGE_URL
          dialogue := if wReq.include_dialogue then some f.dialogue else none
          actionNote := if wReq.include_action_notes then some f.action_note else none }) ∧
    (∀ j, j + 1 ≠ 2 →
      (render_frames wReq wSb wOracleFail2 1 wSb.frames).get? j =
        (render_frames wReq wSb wOracleOk 1 wSb.frames).get? j) :=
  failed_frame_gets_placeholder wReq wSb wOracleFail2 wOracleOk [3, 1, 2] 2
    "DALL-E API error" (by decide) (by decide) rfl
    (fun j hj => by simp [wOracleFail2, hj])

/-- C5 — Whenever the text-generation step yields zero frames (which is
what `_parse_response` produces for unparseable output), the handler
returns `{title, frames: []}` with HTTP 200 and invokes no image
generation at all (`imageCalls = 0`). -/
theorem empty_outline_returns_success (req : StoryboardRequest)
    (getUser : Except String (Option User)) (sb : StoryboardResponse)
    (imgOracle : Nat → Except String String) (order : List Nat) (today : String)
    (hval : req.validate = []) (hempty : sb.frames = []) :
    (generate_storyboard req getUser (.ok sb) imgOracle order today).response =
      ⟨200, .storyboard sb.title []⟩ ∧
    (generate_storyboard req getUser (.ok sb) imgOracle order today).imageCalls = 0 := by
  rw [generate_storyboard_empty req getUser sb imgOracle order today hval hempty]
  exact ⟨rfl, rfl⟩

def wSbEmpty : StoryboardResponse := ⟨"", []⟩

theorem empty_outline_returns_success_witness :
    (generate_storyboard wReq (.ok none) (.ok wSbEmpty) wOracleOk [] "2026-10-12").response =
      ⟨200, .storyboard wSbEmpty.title []⟩ ∧
    (generate_storyboard wReq (.ok none) (.ok wSbEmpty) wOracleOk [] "2026-10-12").imageCalls = 0 :=
  empty_outline_returns_success wReq (.ok none) wSbEmpty wOracleOk [] "2026-10-12"
    rfl rfl

/-- C10 — For every request carrying a `user_id` whose generated outline
has zero frames, the handler returns the empty-frames success response
before reaching the usage-update step, so no
`db_service.update_user_usage` write happens on that path
(`usageWrite = none`). -/
theorem empty_outline_skips_usage_update (req : StoryboardRequest)
    (getUser : Except String (Option User)) (sb : StoryboardResponse)
    (imgOracle : Nat → Except String String) (order : List Nat)
    (today uid : String)
    (hval : req.validate = []) (huid : req.user_id = some uid)
    (hempty : sb.frames = []) :
    (generate_storyboard req getUser (.ok sb) imgOracle order today).response =
      ⟨200, .storyboard sb.title []⟩ ∧
    (generate_storyboard req getUser (.ok sb) imgOracle order today).usageWrite = none := by
  rw [generate_storyboard_empty req getUser sb imgOracle order today hval hempty]
  exact ⟨rfl, rfl⟩

def wReqWithUser : StoryboardRequest :=
  { prompt := "A cat chases the moon", genre := "fantasy",
    visual_style := "watercolor", mood := "dreamy", frame_count := 2,
    camera_angles := ["wide"], user_id := some "user-7" }

def wUser7 : User :=
  { id := "user-7", email := "seven@example.com", daily_usage_count := 1,
    last_usage_date := some "2026-10-12", is_admin := false, role := "user" }

theorem empty_outline_skips_usage_update_witness :
    (generate_storyboard wReqWithUser (.ok (some wUser7)) (.ok ⟨"Moon Chase", []⟩)
        wOracleOk [] "2026-10-12").response =
      ⟨200, .storyboard (StoryboardResponse.mk "Moon Chase" []).title []⟩ ∧
    (generate_storyboard wReqWithUser (.ok (some wUser7)) (.ok ⟨"Moon Chase", []⟩)
        wOracleOk [] "2026-10-12").usageWrite = none :=
  empty_outline_skips_usage_update wReqWithUser (.ok (some wUser7))
    ⟨"Moon Chase", []⟩ wOracleOk [] "2026-10-12" "user-7" rfl rfl rfl

/-- C8 — After a successful generation for a user with a stored
`last_usage_date`, the caller's separate usage-update step writes
`count + 1` when the stored date is today, and resets to `1` when the
day has rolled over. -/
theorem usage_counter_update (u : User) (d today : String)
    (hd : u.last_usage_date = some d) :
    usage_update_step (.ok (some u)) today =
      some (if d = today then u.daily_usage_count + 1 else 1, today) := by
  unfold usage_update_step
  dsimp only
  rw [hd]
  by_cases h : d = today <;> simp [h]

theorem usage_counter_update_witness :
    usage_update_step (.ok (some wUser7)) "2026-10-13" = some (1, "2026-10-13") :=
  (usage_counter_update wUser7 "2026-10-12" "2026-10-13" rfl).trans (by decide)

/-- C9 — When the image-model call of an attempt succeeds but the blob
upload of the returned temporary URL raises, `generate_image` returns
the model's short-lived URL instead of failing: the storage error is
recovered locally (the result is `.ok`, no error escapes).  Stated for
an arbitrary attempt at the head of the remaining-attempts list, and for
the entry point with a first-attempt success. -/
theorem blob_failure_falls_back_to_temp_url :
    (∀ (modelCall : Nat → Except String String)
       (blobUpload : String → Except String String)
       (attempt : Nat) (rest : List Nat) (temp err : String),
       modelCall attempt = .ok temp → blobUpload temp = .error err →
       generate_image_go modelCall blobUpload (attempt :: rest) = .ok temp) ∧
    (∀ (modelCall : Nat → Except String String)
       (blobUpload : String → Except String String) (temp err : String),
       modelCall 0 = .ok temp → blobUpload temp = .error err →
       generate_image modelCall blobUpload = .ok temp) := by
  have p1 : ∀ (modelCall : Nat → Except String String)
      (blobUpload : String → Except String String)
      (attempt : Nat) (rest : List Nat) (temp err : String),
      modelCall attempt = .ok temp → blobUpload temp = .error err →
      generate_image_go modelCall blobUpload (attempt :: rest) = .ok temp := by
    intro mc bu a rest temp err h1 h2
    unfold generate_image_go
    rw [h1]
    dsimp only
    rw [h2]
  refine ⟨p1, fun mc bu temp err h1 h2 => ?_⟩
  have hr : List.range MAX_RETRIES = 0 :: [1, 2] := rfl
  unfold generate_image
  rw [hr]
  exact p1 mc bu 0 [1, 2] temp err h1 h2

def wModelCall : Nat → Except String String :=
  fun _ => .ok "https://dalle.example/tmp.png"

def wBlobUpload : String → Except String String :=
  fun _ => .error "blob container unreachable"

theorem blob_failure_falls_back_to_temp_url_witness :
    generate_image wModelCall wBlobUpload = .ok "https://dalle.example/tmp.png" :=
  blob_failure_falls_back_to_temp_url.2 wModelCall wBlobUpload
    "https://dalle.example/tmp.png" "blob container unreachable" rfl rfl

/-- C4 — The text-generation client's failure handling is asymmetric:
`_parse_response` never raises — on a JSON-decode failure, or on a
decoded object lacking the `"title"` or `"frames"` key, it returns the
outline with empty title and zero frames — while a transport/model error
of the single (unretried) remote call makes `generate_storyboard_data`
raise `APIError` with status 500. -/
theorem parse_and_transport_asymmetry :
    (∀ e, parse_response (.error e) = ⟨.str "", []⟩) ∧
    (∀ kvs, (jlookup kvs "title").isNone = true ∨
        (jlookup kvs "frames").isNone = true →
      parse_response (.ok (.obj kvs)) = ⟨.str "", []⟩) ∧
    (∀ e, generate_storyboard_data (.error e) =
      .error ⟨"Failed to generate storyboard: " ++ e, 500⟩) := by
  refine ⟨fun e => rfl, ?_, fun e => rfl⟩
  intro kvs h
  unfold parse_response
  rcases h with h | h <;> simp [h]

theorem parse_and_transport_asymmetry_witness :
    parse_response (.ok (.obj [("title", .str "Lone Title")])) = ⟨.str "", []⟩ :=
  parse_and_transport_asymmetry.2.1 [("title", .str "Lone Title")] (Or.inr rfl)

/-- The concrete inputs of the C1 scenario: a plain-role user at the
daily limit whose `last_usage_date` is today. -/
def limitedUser : User :=
  { id := "user-42", email := "limited@example.com", daily_usage_count := 3,
    last_usage_date := some "2026-10-12", is_admin := false, role := "user" }

def c1Request : StoryboardRequest :=
  { prompt := "A lighthouse keeper finds a map", genre := "adventure",
    visual_style := "comic", mood := "tense", frame_count := 1,
    camera_angles := ["wide"], user_id := some "user-42" }

def c1Outline : StoryboardResponse :=
  ⟨"The Keeper", [{ description := "The keeper unrolls an old map" }]⟩

/-- C1 — The claim fails on the code: for a `"user"`-role user whose
`last_usage_date` is today and whose `daily_usage_count` equals
`Config.DAILY_USAGE_LIMIT`, the body of `_check_user_limits` does raise
`RateLimitError` (429), but the raise happens inside the method's own
`try`, whose `except Exception` (meant for database errors, per its
comment) swallows it — so the check returns normally, the request is
never failed with 429, and the pipeline proceeds to the model calls and
answers 200 with one image generated. -/
theorem rate_limit_swallowed_bug :
    check_user_limits_body (some limitedUser) "2026-10-12" =
      .error (mkRateLimitError
        "Daily usage limit exceeded. You can create 3 storyboards per day.") ∧
    check_user_limits (.ok (some limitedUser)) "2026-10-12" = .ok () ∧
    (generate_storyboard c1Request (.ok (some limitedUser)) (.ok c1Outline)
      wOracleOk [1] "2026-10-12").response.status = 200 ∧
    (generate_storyboard c1Request (.ok (some limitedUser)) (.ok c1Outline)
      wOracleOk [1] "2026-10-12").imageCalls = 1 := by
  have h := generate_frame_images_eq c1Request c1Outline wOracleOk [1] (by decide)
  have hv : c1Request.validate = [] := rfl
  have hu : c1Request.user_id = some "user-42" := rfl
  have hf : c1Outline.frames = [{ description := "The keeper unrolls an old map" }] := rfl
  refine ⟨rfl, rfl, ?_, ?_⟩ <;>
    simp [generate_storyboard, hv, hu, check_user_limits_ok, hf, h]

/-- Association-list lookup (first match). -/
def alookup {α β : Type} [DecidableEq α] : List (α × β) → α → Option β
  | [], _ => none
  | (k, v) :: rest, a => if k = a then some v else alookup rest a

/-- The ASCII uppercase-to-lowercase table. -/
def upperLowerTable : List (Char × Char) :=
  [('A', 'a'), ('B', 'b'), ('C', 'c'), ('D', 'd'), ('E', 'e'), ('F', 'f'),
   ('G', 'g'), ('H', 'h'), ('I', 'i'), ('J', 'j'), ('K', 'k'), ('L', 'l'),
   ('M', 'm'), ('N', 'n'), ('O', 'o'), ('P', 'p'), ('Q', 'q'), ('R', 'r'),
   ('S', 's'), ('T', 't'), ('U', 'u'), ('V', 'v'), ('W', 'w'), ('X', 'x'),
   ('Y', 'y'), ('Z', 'z')]

/-- ASCII lower-casing of one character. -/
def lowerChar (c : Char) : Char := (alookup upperLowerTable c).getD c

/-- Whitespace for tokenisation (Python `str.split()` separators). -/
def isSpaceChar (c : Char) : Bool :=
  c == ' ' || c == '\t' || c == '\n' || c == '\r'

/-- One (right-fold) step of whitespace tokenisation: the state is the
token currently being built and the finished tokens to its right; a
separator closes the current token, dropping it when empty. -/
def splitAux (c : Char) (acc : List Char × List (List Char)) :
    List Char × List (List Char) :=
  if isSpaceChar c then
    ([], if acc.1 = [] then acc.2 else acc.1 :: acc.2)
  else (c :: acc.1, acc.2)

/-- Whitespace tokenisation (Python `text.split()`): maximal non-space
runs, empty tokens dropped. -/
def splitTokens (l : List Char) : List (List Char) :=
  let r := l.foldr splitAux ([], [])
  if r.1 = [] then r.2 else r.1 :: r.2

/-- Python `" ".join(tokens)`. -/
def joinTokens : List (List Char) → List Char
  | [] => []
  | [t] => t
  | t :: u :: ts => t ++ ' ' :: joinTokens (u :: ts)

/-- Modelled from the spec: the fixed table of risk-associated terms and
their semantically neutral synonyms of the Prompt Sanitizer (§4.3 —
"replaces a fixed table of risk-associated terms with semantically
neutral synonyms (e.g., a term for a weapon replaced with 'item')").
No sanitizer implementation exists under `src/`. -/
def replacementTable : List (List Char × List Char) :=
  [("gun".data, "item".data), ("knife".data, "item".data),
   ("sword".data, "item".data), ("blood".data, "paint".data),
   ("kill".data, "stop".data), ("fight".data, "dance".data)]

/-- Modelled from the spec: the larger blocklist of tokens dropped
entirely by the Prompt Sanitizer (§4.3). -/
def blocklist : List (List Char) :=
  ["gore".data, "corpse".data, "murder".data, "massacre".data,
   "torture".data, "weapon".data]

/-- Per-token sanitisation: a term in the replacement table becomes its
synonym, a remaining blocklisted token is dropped (`none`), anything
else is kept. -/
def cleanToken (t : List Char) : Option (List Char) :=
  match alookup replacementTable t with
  | some s => some s
  | none => if t ∈ blocklist then none else some t

/-- Modelled from the spec: `sanitize(text)` of the Prompt Sanitizer
(§4.3) on the character list — lower-cases the input, splits it into
whitespace tokens, replaces table terms with their synonyms, drops the
remaining blocklisted tokens, and rejoins with single spaces.  Purely
deterministic, no I/O, no failure mode. -/
def sanitizeChars (l : List Char) : List Char :=
  joinTokens ((splitTokens (l.map lowerChar)).filterMap cleanToken)

/-- Modelled from the spec: `sanitize(text) -> text` of the Prompt
Sanitizer (§4.3), at the string level.  No implementation of this
component exists under `src/`. -/
def sanitize (s : String) : String := String.mk (sanitizeChars s.data)

/-- A token as produced by tokenising a lower-cased text: non-empty,
space-free, fixed under lower-casing. -/
def GoodTok (t : List Char) : Prop :=
  t ≠ [] ∧ ∀ c ∈ t, isSpaceChar c = false ∧ lowerChar c = c

/-- A token that the sanitizer emits and that survives a second pass
unchanged. -/
def CleanTok (t : List Char) : Prop :=
  GoodTok t ∧ cleanToken t = some t

theorem alookup_mem {α β : Type} [DecidableEq α] :
    ∀ (l : List (α × β)) (a : α) (b : β), alookup l a = some b → (a, b) ∈ l := by
  intro l
  induction l with
  | nil => intro a b h; cases h
  | cons p rest ih =>
    intro a b h
    rcases p with ⟨k, v⟩
    unfold alookup at h
    by_cases hk : k = a
    · subst hk
      rw [if_pos rfl] at h
      cases h
      exact List.mem_cons_self _ _
    · rw [if_neg hk] at h
      exact List.mem_cons_of_mem _ (ih a b h)

theorem lowerChar_idem (c : Char) : lowerChar (lowerChar c) = lowerChar c := by
  cases h : alookup upperLowerTable c with
  | none => simp [lowerChar, h]
  | some v =>
    have hm := alookup_mem _ _ _ h
    have hv : ∀ p ∈ upperLowerTable, alookup upperLowerTable p.2 = none := by decide
    simp [lowerChar, h, hv (c, v) hm]

theorem isSpaceChar_lowerChar (c : Char) :
    isSpaceChar (lowerChar c) = isSpaceChar c := by
  cases h : alookup upperLowerTable c with
  | none => simp [lowerChar, h]
  | some v =>
    have hm := alookup_mem _ _ _ h
    have hp : ∀ p ∈ upperLowerTable,
        isSpaceChar p.1 = false ∧ isSpaceChar p.2 = false := by decide
    obtain ⟨h1, h2⟩ := hp (c, v) hm
    simp [lowerChar, h, h1, h2]

theorem splitAux_inv : ∀ (l : List Char),
    (∀ c ∈ (l.foldr splitAux (([], []) : List Char × List (List Char))).1,
      isSpaceChar c = false ∧ c ∈ l) ∧
    (∀ t ∈ (l.foldr splitAux (([], []) : List Char × List (List Char))).2,
      t ≠ [] ∧ ∀ c ∈ t, isSpaceChar c = false ∧ c ∈ l) := by
  intro l
  induction l with
  | nil => exact ⟨by simp, by simp⟩
  | cons a l ih =>
    obtain ⟨ih1, ih2⟩ := ih
    rw [List.foldr_cons]
    by_cases hs : isSpaceChar a = true
    · constructor
      · intro c hc
        simp [splitAux, hs] at hc
      · intro t ht
        simp only [splitAux, if_pos hs] at ht
        by_cases hcur : (l.foldr splitAux ([], [])).1 = []
        · rw [if_pos hcur] at ht
          obtain ⟨h1, h2⟩ := ih2 t ht
          exact ⟨h1, fun c hc =>
            ⟨(h2 c hc).1, List.mem_cons_of_mem _ (h2 c hc).2⟩⟩
        · rw [if_neg hcur] at ht
          rcases List.mem_cons.mp ht with h | h
          · subst h
            exact ⟨hcur, fun c hc =>
              ⟨(ih1 c hc).1, List.mem_cons_of_mem _ (ih1 c hc).2⟩⟩
          · obtain ⟨h1, h2⟩ := ih2 t h
            exact ⟨h1, fun c hc =>
              ⟨(h2 c hc).1, List.mem_cons_of_mem _ (h2 c hc).2⟩⟩
    · constructor
      · intro c hc
        simp only [splitAux, if_neg hs] at hc
        rcases List.mem_cons.mp hc with h | h
        · subst h
          exact ⟨by simpa using hs, List.mem_cons_self _ _⟩
        · exact ⟨(ih1 c h).1, List.mem_cons_of_mem _ (ih1 c h).2⟩
      · intro t ht
        simp only [splitAux, if_neg hs] at ht
        obtain ⟨h1, h2⟩ := ih2 t ht
        exact ⟨h1, fun c hc =>
          ⟨(h2 c hc).1, List.mem_cons_of_mem _ (h2 c hc).2⟩⟩

theorem splitTokens_map_lower_good (l : List Char) :
    ∀ t ∈ splitTokens (l.map lowerChar), GoodTok t := by
  intro t ht
  have hmem : ∀ c, c ∈ l.map lowerChar → lowerChar c = c := by
    intro c hc
    rcases List.mem_map.mp hc with ⟨c0, _, rfl⟩
    exact lowerChar_idem c0
  obtain ⟨inv1, inv2⟩ := splitAux_inv (l.map lowerChar)
  unfold splitTokens at ht
  by_cases hcur : ((l.map lowerChar).foldr splitAux ([], [])).1 = []
  · rw [if_pos hcur] at ht
    obtain ⟨h1, h2⟩ := inv2 t ht
    exact ⟨h1, fun c hc => ⟨(h2 c hc).1, hmem c (h2 c hc).2⟩⟩
  · rw [if_neg hcur] at ht
    rcases List.mem_cons.mp ht with h | h
    · subst h
      exact ⟨hcur, fun c hc => ⟨(inv1 c hc).1, hmem c (inv1 c hc).2⟩⟩
    · obtain ⟨h1, h2⟩ := inv2 t h
      exact ⟨h1, fun c hc => ⟨(h2 c hc).1, hmem c (h2 c hc).2⟩⟩

theorem foldr_splitAux_nospace :
    ∀ (t : List Char) (acc : List Char × List (List Char)),
    (∀ c ∈ t, isSpaceChar c = false) →
    t.foldr splitAux acc = (t ++ acc.1, acc.2) := by
  intro t
  induction t with
  | nil => intro acc _; simp
  | cons c t ih =>
    intro acc h
    have hc := h c (List.mem_cons_self _ _)
    rw [List.foldr_cons, ih acc (fun d hd => h d (List.mem_cons_of_mem _ hd))]
    simp [splitAux, hc]

theorem foldr_splitAux_join :
    ∀ (ts : List (List Char)) (t : List Char),
    (∀ u ∈ t :: ts, u ≠ [] ∧ ∀ c ∈ u, isSpaceChar c = false) →
    (joinTokens (t :: ts)).foldr splitAux ([], []) = (t, ts) := by
  intro ts
  induction ts with
  | nil =>
    intro t h
    have := (h t (List.mem_cons_self _ _)).2
    simp [joinTokens, foldr_splitAux_nospace t ([], []) this]
  | cons u ts ih =>
    intro t h
    have hrest : (joinTokens (u :: ts)).foldr splitAux ([], []) = (u, ts) :=
      ih u (fun v hv => h v (List.mem_cons_of_mem _ hv))
    have hu : u ≠ [] := (h u (List.mem_cons_of_mem _ (List.mem_cons_self _ _))).1
    have ht := (h t (List.mem_cons_self _ _)).2
    show (t ++ ' ' :: joinTokens (u :: ts)).foldr splitAux ([], []) = (t, u :: ts)
    rw [List.foldr_append, List.foldr_cons, hrest]
    have hsp : splitAux ' ' (u, ts) = ([], u :: ts) := by
      simp [splitAux, isSpaceChar, hu]
    rw [hsp, foldr_splitAux_nospace t ([], u :: ts) ht]
    simp

theorem splitTokens_joinTokens (ts : List (List Char))
    (h : ∀ u ∈ ts, u ≠ [] ∧ ∀ c ∈ u, isSpaceChar c = false) :
    splitTokens (joinTokens ts) = ts := by
  cases ts with
  | nil => rfl
  | cons t ts =>
    have hf := foldr_splitAux_join ts t h
    have ht : t ≠ [] := (h t (List.mem_cons_self _ _)).1
    unfold splitTokens
    rw [hf]
    simp [ht]

theorem map_fix {f : Char → Char} :
    ∀ (l : List Char), (∀ c ∈ l, f c = c) → l.map f = l := by
  intro l
  induction l with
  | nil => intro _; rfl
  | cons c l ih =>
    intro h
    rw [List.map_cons, h c (List.mem_cons_self _ _),
      ih (fun d hd => h d (List.mem_cons_of_mem _ hd))]

theorem map_lowerChar_joinTokens :
    ∀ (ts : List (List Char)),
    (∀ t ∈ ts, ∀ c ∈ t, lowerChar c = c) →
    (joinTokens ts).map lowerChar = joinTokens ts := by
  intro ts
  induction ts with
  | nil => intro _; rfl
  | cons t ts ih =>
    intro h
    cases ts with
    | nil => exact map_fix t (h t (List.mem_cons_self _ _))
    | cons u ts =>
      show (t ++ ' ' :: joinTokens (u :: ts)).map lowerChar = _
      rw [List.map_append, List.map_cons,
        map_fix t (h t (List.mem_cons_self _ _)),
        ih (fun v hv => h v (List.mem_cons_of_mem _ hv))]
      rfl

theorem cleanToken_clean (t u : List Char) (hg : GoodTok t)
    (hc : cleanToken t = some u) : CleanTok u := by
  unfold cleanToken at hc
  cases h : alookup replacementTable t with
  | some v =>
    simp only [h] at hc
    cases hc
    have hm := alookup_mem _ _ _ h
    have hval : ∀ p ∈ replacementTable,
        (p.2 ≠ [] ∧ ∀ c ∈ p.2, isSpaceChar c = false ∧ lowerChar c = c) ∧
        cleanToken p.2 = some p.2 := by decide
    exact hval (t, u) hm
  | none =>
    simp only [h] at hc
    by_cases hb : t ∈ blocklist
    · simp [hb] at hc
    · simp only [if_neg hb] at hc
      cases hc
      refine ⟨hg, ?_⟩
      unfold cleanToken
      rw [h, if_neg hb]

theorem filterMap_clean_fix :
    ∀ (ts : List (List Char)), (∀ t ∈ ts, cleanToken t = some t) →
    ts.filterMap cleanToken = ts := by
  intro ts
  induction ts with
  | nil => intro _; rfl
  | cons t ts ih =>
    intro h
    rw [List.filterMap_cons, h t (List.mem_cons_self _ _),
      ih (fun u hu => h u (List.mem_cons_of_mem _ hu))]

theorem sanitizeChars_tokens_clean (l : List Char) :
    ∀ t ∈ (splitTokens (l.map lowerChar)).filterMap cleanToken, CleanTok t := by
  intro t ht
  rcases List.mem_filterMap.mp ht with ⟨t0, ht0, hct⟩
  exact cleanToken_clean t0 t (splitTokens_map_lower_good l t0 ht0) hct

theorem sanitizeChars_fix (ts : List (List Char))
    (h : ∀ t ∈ ts, CleanTok t) :
    sanitizeChars (joinTokens ts) = joinTokens ts := by
  unfold sanitizeChars
  rw [map_lowerChar_joinTokens ts (fun t ht c hc => ((h t ht).1.2 c hc).2),
    splitTokens_joinTokens ts (fun t ht =>
      ⟨(h t ht).1.1, fun c hc => ((h t ht).1.2 c hc).1⟩),
    filterMap_clean_fix ts (fun t ht => (h t ht).2)]

theorem sanitizeChars_idem (l : List Char) :
    sanitizeChars (sanitizeChars l) = sanitizeChars l :=
  sanitizeChars_fix _ (sanitizeChars_tokens_clean l)

/-- C7 — The Prompt Sanitizer (modelled from the spec: no implementation
exists under `src/`) is an idempotent, pure, deterministic function:
`sanitize(sanitize(x)) = sanitize(x)` for every input string `x`. -/
theorem sanitize_idempotent (x : String) :
    sanitize (sanitize x) = sanitize x :=
  congrArg String.mk (sanitizeChars_idem x.data)

end Scripto
